import Mathlib

/-!
Verification of `photos_time_warp` (`src/photos_time_warp/phototz.py`):
a shallow embedding of the timezone codec, the schema-version resolver,
the asset locator, and the optimistic update executor, together with
proofs of the specified properties.
-/

/-! ## Timezone codec (`tz_to_str`, phototz.py lines 68-76) -/

/-- Python `divmod` on naturals: the pair of quotient and remainder. -/
def pydivmod (a b : Nat) : Nat × Nat := (a / b, a % b)

/-- Python format directive `{n:02}`: the decimal representation of `n`,
zero-padded on the left to a minimum width of 2 characters. -/
def format02 (n : Nat) : String :=
  let s := Nat.repr n
  if s.length < 2 then (List.replicate (2 - s.length) '0').asString ++ s else s

/-- Embeds `tz_to_str` (phototz.py:68-76): sign from the comparison with 0,
magnitude decomposed with `divmod` into minutes, then hours and remaining
minutes, each rendered with the `{:02}` format directive. -/
def tz_to_str (tz_seconds : Int) : String :=
  let sign := if tz_seconds ≥ 0 then "+" else "-"
  let t := tz_seconds.natAbs
  let md := pydivmod t 60
  let hm := pydivmod md.1 60
  sign ++ format02 hm.1 ++ format02 hm.2

/-! ### Helper lemmas about decimal representations -/

theorem toDigitsCore_length_ge_one (fuel : Nat) :
    ∀ (n : Nat) (ds : List Char), 0 < fuel →
      ds.length + 1 ≤ (Nat.toDigitsCore 10 fuel n ds).length := by
  induction fuel with
  | zero => intro n ds h; exact absurd h (by simp)
  | succ f ih =>
    intro n ds _
    simp only [Nat.toDigitsCore]
    split
    · simp
    · rcases Nat.eq_zero_or_pos f with h0 | hf
      · subst h0
        simp [Nat.toDigitsCore]
      · have h2 := ih (n / 10) ((n % 10).digitChar :: ds) hf
        simp only [List.length_cons] at h2
        omega

theorem toDigitsCore_length_ge_two (fuel n : Nat) (ds : List Char)
    (hn : 10 ≤ n) (hf : 2 ≤ fuel) :
    ds.length + 2 ≤ (Nat.toDigitsCore 10 fuel n ds).length := by
  obtain ⟨f, rfl⟩ : ∃ f, fuel = f + 1 := ⟨fuel - 1, by omega⟩
  have hdiv : 0 < n / 10 := Nat.div_pos hn (by norm_num)
  simp only [Nat.toDigitsCore]
  rw [if_neg (Nat.pos_iff_ne_zero.mp hdiv)]
  have := toDigitsCore_length_ge_one f (n / 10) (Nat.digitChar (n % 10) :: ds) (by omega)
  simpa using this

theorem toDigitsCore_length_ge_three (fuel n : Nat) (ds : List Char)
    (hn : 100 ≤ n) (hf : 3 ≤ fuel) :
    ds.length + 3 ≤ (Nat.toDigitsCore 10 fuel n ds).length := by
  obtain ⟨f, rfl⟩ : ∃ f, fuel = f + 1 := ⟨fuel - 1, by omega⟩
  have hdiv : 0 < n / 10 := Nat.div_pos (by omega) (by norm_num)
  have hdiv10 : 10 ≤ n / 10 := (Nat.le_div_iff_mul_le (by norm_num)).mpr (by omega)
  simp only [Nat.toDigitsCore]
  rw [if_neg (Nat.pos_iff_ne_zero.mp hdiv)]
  have := toDigitsCore_length_ge_two f (n / 10) (Nat.digitChar (n % 10) :: ds) hdiv10 (by omega)
  simpa using this

theorem repr_length_ge_three (n : Nat) (h : 100 ≤ n) : 3 ≤ (Nat.repr n).length := by
  show 3 ≤ (Nat.toDigits 10 n).asString.length
  rw [List.length_asString]
  have := toDigitsCore_length_ge_three (n + 1) n [] h (by omega)
  simpa [Nat.toDigits] using this

/-- For arguments below 100 the `{:02}` rendering is exactly two decimal digits. -/
theorem format02_small : ∀ n, n < 100 →
    (format02 n).length = 2 ∧ ∀ c ∈ (format02 n).data, c.isDigit = true := by
  decide

/-- For arguments of 100 or more the `{:02}` rendering is the bare decimal
representation, of length at least 3. -/
theorem format02_large (n : Nat) (h : 100 ≤ n) :
    format02 n = Nat.repr n ∧ 3 ≤ (format02 n).length := by
  have h3 := repr_length_ge_three n h
  have : ¬ ((Nat.repr n).length < 2) := by omega
  constructor
  · simp [format02, this]
  · simp [format02, this]
    omega

/-- `tz_to_str` unfolded to its three concatenated pieces. -/
theorem tz_to_str_eq (tz : Int) :
    tz_to_str tz =
      (if 0 ≤ tz then "+" else "-")
        ++ format02 (tz.natAbs / 60 / 60) ++ format02 (tz.natAbs / 60 % 60) := rfl

theorem sign_data (tz : Int) :
    (if 0 ≤ tz then "+" else "-").data = [if 0 ≤ tz then '+' else '-'] := by
  split <;> rfl

theorem sign_length (tz : Int) :
    (if 0 ≤ tz then "+" else "-").length = 1 := by
  split <;> rfl

/-- The character list underlying `tz_to_str`. -/
theorem tz_to_str_data (tz : Int) :
    (tz_to_str tz).data =
      (if 0 ≤ tz then '+' else '-')
        :: ((format02 (tz.natAbs / 60 / 60)).data ++ (format02 (tz.natAbs / 60 % 60)).data) := by
  rw [tz_to_str_eq, String.data_append, String.data_append, sign_data]
  simp

theorem tz_to_str_length (tz : Int) :
    (tz_to_str tz).length =
      1 + (format02 (tz.natAbs / 60 / 60)).length + (format02 (tz.natAbs / 60 % 60)).length := by
  rw [tz_to_str_eq, String.length_append, String.length_append, sign_length]

/-- **C5.** For every integer offset in seconds, `tz_to_str` uses `+` for
offsets ≥ 0 and `-` otherwise, decomposes the magnitude by integer division
(seconds to minutes discarding the remainder, then minutes to hours and
remaining minutes), and renders sign then zero-padded hours then zero-padded
minutes; in particular the four literal cases of the spec hold. -/
theorem claim_C5_encode_shape :
    (∀ tz : Int, tz_to_str tz =
        (if 0 ≤ tz then "+" else "-")
          ++ format02 (tz.natAbs / 60 / 60) ++ format02 (tz.natAbs / 60 % 60))
    ∧ (∀ tz : Int, (tz_to_str tz).data.head? = some (if 0 ≤ tz then '+' else '-'))
    ∧ tz_to_str 0 = "+0000"
    ∧ tz_to_str (-18000) = "-0500"
    ∧ tz_to_str 1800 = "+0030"
    ∧ tz_to_str 19800 = "+0530" := by
  refine ⟨fun tz => tz_to_str_eq tz, fun tz => ?_, by decide, by decide, by decide, by decide⟩
  rw [tz_to_str_data]
  rfl

/-- **C9.** For every offset whose magnitude is at most 50400 seconds, the
encoded string is exactly 5 characters: one sign character (`+` or `-`)
followed by 4 decimal digits. -/
theorem claim_C9_five_chars (tz : Int) (h : tz.natAbs ≤ 50400) :
    (tz_to_str tz).length = 5
    ∧ (tz_to_str tz).data.head? = some (if 0 ≤ tz then '+' else '-')
    ∧ ((tz_to_str tz).data.drop 1).length = 4
    ∧ ∀ c ∈ (tz_to_str tz).data.drop 1, c.isDigit = true := by
  have hhh : tz.natAbs / 60 / 60 < 100 := by
    have h1 : tz.natAbs / 60 ≤ 50400 / 60 := Nat.div_le_div_right h
    have h2 : tz.natAbs / 60 / 60 ≤ 840 / 60 := Nat.div_le_div_right (by omega)
    omega
  have hmm : tz.natAbs / 60 % 60 < 100 := by
    have := Nat.mod_lt (tz.natAbs / 60) (y := 60) (by norm_num)
    omega
  obtain ⟨hlen1, hdig1⟩ := format02_small _ hhh
  obtain ⟨hlen2, hdig2⟩ := format02_small _ hmm
  have hd1 : (format02 (tz.natAbs / 60 / 60)).data.length = 2 := hlen1
  have hd2 : (format02 (tz.natAbs / 60 % 60)).data.length = 2 := hlen2
  refine ⟨?_, ?_, ?_, ?_⟩
  · rw [tz_to_str_length, hlen1, hlen2]
  · rw [tz_to_str_data]
    rfl
  · rw [tz_to_str_data]
    simp only [List.drop_succ_cons, List.drop_zero, List.length_append, hd1, hd2]
  · rw [tz_to_str_data]
    intro c hc
    simp only [List.drop_succ_cons, List.drop_zero, List.mem_append] at hc
    exact hc.elim (hdig1 c) (hdig2 c)

/-- Witness for C9 at the concrete offset -18000. -/
theorem claim_C9_five_chars_witness :
    (Int.natAbs (-18000) ≤ 50400)
    ∧ ((tz_to_str (-18000)).length = 5
        ∧ (tz_to_str (-18000)).data.head? = some (if (0:Int) ≤ -18000 then '+' else '-')
        ∧ ((tz_to_str (-18000)).data.drop 1).length = 4
        ∧ ∀ c ∈ (tz_to_str (-18000)).data.drop 1, c.isDigit = true) :=
  ⟨by decide, claim_C9_five_chars (-18000) (by decide)⟩

/-- **C10.** The encoder is total over every integer: the first character is
`+` exactly when the offset is ≥ 0 and `-` exactly when it is negative, and
for magnitudes of 360000 seconds (100 hours) or more the result is strictly
longer than 5 characters, so the 5-character invariant needs the range
precondition. -/
theorem claim_C10_totality :
    (∀ tz : Int, (tz_to_str tz).data.head? = some '+' ↔ 0 ≤ tz)
    ∧ (∀ tz : Int, (tz_to_str tz).data.head? = some '-' ↔ tz < 0)
    ∧ (∀ tz : Int, 360000 ≤ tz.natAbs → 5 < (tz_to_str tz).length) := by
  have hhead : ∀ tz : Int, (tz_to_str tz).data.head? = some (if 0 ≤ tz then '+' else '-') := by
    intro tz
    rw [tz_to_str_data]
    rfl
  refine ⟨fun tz => ?_, fun tz => ?_, fun tz h => ?_⟩
  · rw [hhead tz]
    by_cases h : 0 ≤ tz <;> simp [h]
  · rw [hhead tz]
    by_cases h : 0 ≤ tz
    · simp [h]
    · simp [h]
      omega
  · have hh100 : 100 ≤ tz.natAbs / 60 / 60 := by
      rw [Nat.div_div_eq_div_mul]
      exact (Nat.le_div_iff_mul_le (by norm_num)).mpr (by omega)
    obtain ⟨-, h3⟩ := format02_large _ hh100
    obtain ⟨hlen2, -⟩ := format02_small (tz.natAbs / 60 % 60)
      (by have := Nat.mod_lt (tz.natAbs / 60) (y := 60) (by norm_num); omega)
    rw [tz_to_str_length, hlen2]
    omega

/-- Witness for C10 at the concrete offset 360000. -/
theorem claim_C10_totality_witness :
    ((tz_to_str 360000).data.head? = some '+' ↔ (0:Int) ≤ 360000)
    ∧ 5 < (tz_to_str 360000).length :=
  ⟨claim_C10_totality.1 360000, claim_C10_totality.2.2 360000 (by decide)⟩

/-! ## Data model: the joined asset / attributes tables and the metadata row -/

/-- A row of `ZADDITIONALASSETATTRIBUTES`: primary key, foreign key to the
asset table, optimistic counter `Z_OPT`, and the two timezone fields. -/
structure AttrRow where
  z_pk : Nat
  zasset : Nat
  z_opt : Nat
  ztimezoneoffset : Int
  ztimezonename : String
deriving Repr, DecidableEq

/-- A row of the version-specific asset table: primary key and external UUID. -/
structure AssetRow where
  z_pk : Nat
  zuuid : String
deriving Repr, DecidableEq

/-- The serialized property blob of the metadata row: either malformed
(where `plistlib.loads` raises) or a decoded key/value dictionary. -/
inductive PlistBlob where
  | malformed
  | dict (entries : List (String × Nat))
deriving Repr, DecidableEq

/-- A `Z_METADATA` row: version counter and property blob. -/
structure MetaRow where
  z_version : Nat
  z_plist : PlistBlob
deriving Repr, DecidableEq

/-- The database state: the (at most one logical) metadata row, the asset
table, and the additional-attributes table. -/
structure PhotosDB where
  metadata : Option MetaRow
  assets : List AssetRow
  attrs : List AttrRow
deriving Repr, DecidableEq

/-- The error taxonomy of the spec (§7). `transientWrite` carries a code so
that distinct failures are distinguishable. -/
inductive PTWError where
  | recordNotFound
  | schemaUnreadable
  | transientWrite (code : Nat)
deriving Repr, DecidableEq

/-- The caller-supplied timezone record: offset in seconds east of UTC and a name. -/
structure Timezone where
  offset : Int
  name : String
deriving Repr, DecidableEq

/-- The collaborator-supplied photo handle: external UUID and display filename. -/
structure Photo where
  uuid : String
  filename : String
deriving Repr, DecidableEq

/-! ## Schema version resolution (`get_db_model_version`, `get_photos_version`) -/

/-- Embeds `get_db_model_version` (phototz.py:27-42): read the metadata row
with the highest version counter, decode its blob, extract `PLModelVersion`.
An absent row, a malformed blob, or a missing key raises, classified by the
spec taxonomy as `SchemaUnreadable`. -/
def get_db_model_version (db : PhotosDB) : Except PTWError Nat :=
  match db.metadata with
  | none => .error .schemaUnreadable
  | some row =>
    match row.z_plist with
    | .malformed => .error .schemaUnreadable
    | .dict entries =>
      match entries.lookup ("PLModelVersion") with
      | none => .error .schemaUnreadable
      | some v => .ok v

/-- Embeds `get_photos_version` (phototz.py:45-64). The three inclusive
model-version ranges (`_PHOTOS_5_MODEL_VERSION` … `_PHOTOS_7_MODEL_VERSION`)
live in the external `osxphotos` package, so they are parameters `r5 r6 r7`
here; the chain of comparisons and the fallback to 7 are the source's. -/
def get_photos_version (r5 r6 r7 : Nat × Nat) (model_ver : Nat) : Nat :=
  if r5.1 ≤ model_ver ∧ model_ver ≤ r5.2 then 5
  else if r6.1 ≤ model_ver ∧ model_ver ≤ r6.2 then 6
  else if r7.1 ≤ model_ver ∧ model_ver ≤ r7.2 then 7
  else 7

/-! ## Asset locator (the SELECT/JOIN reads) -/

/-- The rows produced by the SELECT … JOIN of phototz.py:105-112 and 169-178:
attribute rows whose `ZASSET` foreign key hits an asset row carrying the
requested `ZUUID`. -/
def joinRows (db : PhotosDB) (uuid : String) : List AttrRow :=
  db.attrs.filter (fun a => db.assets.any (fun s => a.zasset == s.z_pk && s.zuuid == uuid))

/-- Embeds `PhotoTimeZone.get_timezone` (phototz.py:102-117): `next(results)`
on an empty result raises, classified as `RecordNotFound`; otherwise the
first row's stored offset, its encoding, and the stored name are returned. -/
def get_timezone (db : PhotosDB) (uuid : String) : Except PTWError (Int × String × String) :=
  match joinRows db uuid with
  | [] => .error .recordNotFound
  | row :: _ => .ok (row.ztimezoneoffset, tz_to_str row.ztimezoneoffset, row.ztimezonename)

/-- The `AssetRecord` of the spec: primary key, counter, timezone fields. -/
structure AssetRecord where
  z_pk : Nat
  z_opt : Nat
  ztimezoneoffset : Int
  ztimezonename : String
deriving Repr, DecidableEq

/-- The read half of `PhotoTimeZoneUpdater._update_photo` (phototz.py:168-182):
the same join, keeping `Z_PK` and `Z_OPT` as well. -/
def locateAsset (db : PhotosDB) (uuid : String) : Except PTWError AssetRecord :=
  match joinRows db uuid with
  | [] => .error .recordNotFound
  | row :: _ => .ok ⟨row.z_pk, row.z_opt, row.ztimezoneoffset, row.ztimezonename⟩

/-! ## Optimistic update executor -/

/-- The effect of the `sql_update` statement on one row: rows selected by
`Z_PK` alone get the new counter and timezone fields, all others are kept. -/
def applyRow (z_pk z_opt : Nat) (off : Int) (name : String) (r : AttrRow) : AttrRow :=
  if r.z_pk = z_pk then
    { r with z_opt := z_opt, ztimezoneoffset := off, ztimezonename := name }
  else r

/-- Embeds the `sql_update` statement of phototz.py:183-189:
`UPDATE ZADDITIONALASSETATTRIBUTES SET Z_OPT=…, ZTIMEZONEOFFSET=…,
ZTIMEZONENAME=… WHERE Z_PK=…`. -/
def sql_update (attrs : List AttrRow) (z_pk z_opt : Nat) (off : Int) (name : String) :
    List AttrRow :=
  attrs.map (applyRow z_pk z_opt off name)

/-- The verbose notification emitted on success (phototz.py:190-194). -/
def updateMessage (p : Photo) (oldName : String) (oldOff : Int)
    (newName : String) (newOff : Int) : String :=
  "Updated timezone for photo " ++ p.filename ++ " (" ++ p.uuid ++ ") from "
    ++ oldName ++ ", offset=" ++ toString oldOff
    ++ " to " ++ newName ++ ", offset=" ++ toString newOff

/-- Embeds one attempt of `PhotoTimeZoneUpdater._update_photo`
(phototz.py:166-196) without its retry decorator: read the joined row, set
`z_opt` to the read counter plus one, issue the update selected by `Z_PK`,
emit the verbose notification. -/
def update_photo_once (tz : Timezone) (db : PhotosDB) (p : Photo) :
    Except PTWError (PhotosDB × List String) :=
  match joinRows db p.uuid with
  | [] => .error .recordNotFound
  | row :: _ =>
    let z_opt := row.z_opt + 1
    let z_pk := row.z_pk
    let attrs2 := sql_update db.attrs z_pk z_opt tz.offset tz.name
    .ok ({ db with attrs := attrs2 },
      [updateMessage p row.ztimezonename row.ztimezoneoffset tz.name tz.offset])

/-! ## Retry policy (spec §4.3) -/

/-- Modelled from the spec: the wait schedule of the retry decorator on
`_update_photo` (phototz.py:162-165) comes from the external `tenacity`
package, whose source is not in this repository. Per the spec: exponential
backoff with initial delay 100 ms and multiplier 1, capped at 5 s. Delays
are in milliseconds; `k` is the 0-based index of the wait. -/
def backoffDelay (k : Nat) : Nat := min (1 * (100 * 2 ^ k)) 5000

/-- Modelled from the spec: the retry driver of the external `tenacity`
decorator. `i` is the 1-based attempt number, `remaining` the number of
attempts still allowed after the current one. Returns the final outcome —
the last error when every attempt fails — and the list of backoff delays
slept between attempts. -/
def retryGo (f : Nat → Except PTWError α) : Nat → Nat → Except PTWError α × List Nat
  | i, 0 => (f i, [])
  | i, n + 1 =>
    match f i with
    | .ok a => (.ok a, [])
    | .error _ =>
      let rest := retryGo f (i + 1) n
      (rest.1, backoffDelay (i - 1) :: rest.2)

/-- Modelled from the spec: `stop_after_attempt(10)` — up to 10 total
attempts, so at most 9 waits after the first attempt. -/
def retryUpdate (f : Nat → Except PTWError α) : Except PTWError α × List Nat :=
  retryGo f 1 9

/-- `_update_photo` as called through its decorator: the single-attempt body
under the retry policy. The embedded body is deterministic in its inputs, so
every attempt computes the same result. -/
def update_photo_retried (tz : Timezone) (db : PhotosDB) (p : Photo) :
    Except PTWError (PhotosDB × List String) :=
  (retryUpdate (fun _ => update_photo_once tz db p)).1

/-- The rendering of a caught exception in the per-asset error report. -/
def errorText : PTWError → String
  | .recordNotFound => "RecordNotFound"
  | .schemaUnreadable => "SchemaUnreadable"
  | .transientWrite c => "TransientWriteError " ++ toString c

/-- Embeds `PhotoTimeZoneUpdater.update_photo` (phototz.py:151-160): run the
retried update, catch every error, report it through the verbose sink, and
return normally. -/
def update_photo (tz : Timezone) (db : PhotosDB) (p : Photo) : PhotosDB × List String :=
  match update_photo_retried tz db p with
  | .ok r => r
  | .error e => (db, ["Error updating " ++ p.uuid ++ ": " ++ errorText e])

/-- The batch driver: process the photos in order, each through
`update_photo`, threading the database state and collecting each photo's
notifications. -/
def update_photos (tz : Timezone) (db : PhotosDB) : List Photo → PhotosDB × List (List String)
  | [] => (db, [])
  | p :: ps =>
    let r := update_photo tz db p
    let rest := update_photos tz r.1 ps
    (rest.1, r.2 :: rest.2)

/-! ## Session construction -/

/-- The session state built by `PhotoTimeZoneUpdater.__init__`. -/
structure Updater where
  timezone : Timezone
  photos_version : Nat
deriving Repr, DecidableEq

/-- Embeds `PhotoTimeZoneUpdater.__init__` (phototz.py:123-149): schema
resolution runs at construction; a failure there propagates and aborts the
construction of the session object. -/
def initUpdater (r5 r6 r7 : Nat × Nat) (tz : Timezone) (db : PhotosDB) :
    Except PTWError Updater :=
  match get_db_model_version db with
  | .error e => .error e
  | .ok mv => .ok { timezone := tz, photos_version := get_photos_version r5 r6 r7 mv }

/-! ## Retry policy lemmas and claim C2 -/

theorem retryGo_zero (f : Nat → Except PTWError α) (i : Nat) :
    retryGo f i 0 = (f i, []) := rfl

theorem retryGo_succ (f : Nat → Except PTWError α) (i n : Nat) :
    retryGo f i (n + 1) =
      match f i with
      | .ok a => (.ok a, [])
      | .error _ =>
        ((retryGo f (i + 1) n).1, backoffDelay (i - 1) :: (retryGo f (i + 1) n).2) := rfl

theorem retryGo_error (f : Nat → Except PTWError α) (i n : Nat) (e : PTWError)
    (h : f i = .error e) :
    retryGo f i (n + 1) =
      ((retryGo f (i + 1) n).1, backoffDelay (i - 1) :: (retryGo f (i + 1) n).2) := by
  rw [retryGo_succ, h]

/-- The retry loop only inspects the attempts it may make. -/
theorem retryGo_congr (f g : Nat → Except PTWError α) :
    ∀ (n i : Nat), (∀ j, i ≤ j → j ≤ i + n → f j = g j) →
      retryGo f i n = retryGo g i n := by
  intro n
  induction n with
  | zero =>
    intro i h
    rw [retryGo_zero, retryGo_zero, h i le_rfl (by omega)]
  | succ m ih =>
    intro i h
    rw [retryGo_succ, retryGo_succ, h i le_rfl (by omega)]
    cases hg : g i with
    | ok a => rfl
    | error e =>
      have hrec := ih (i + 1) (fun j hj1 hj2 => h j (by omega) (by omega))
      simp only [hrec]

/-- **C2.** When every attempt of the update statement fails, the retried
update makes exactly 10 total attempts with 9 intervening waits whose delays
start at 100 ms, never decrease, and are capped at 5000 ms; it surfaces the
last attempt's error (the spec's `UpdateExhausted` condition) instead of
retrying further, and its outcome never depends on attempts past the 10th. -/
theorem claim_C2_retry (f : Nat → Except PTWError (PhotosDB × List String))
    (es : Nat → PTWError) (hf : ∀ i, 1 ≤ i → i ≤ 10 → f i = .error (es i)) :
    (retryUpdate f).1 = .error (es 10)
    ∧ (retryUpdate f).2.length = 9
    ∧ (retryUpdate f).2.head? = some 100
    ∧ (retryUpdate f).2.Chain' (· ≤ ·)
    ∧ (∀ d ∈ (retryUpdate f).2, d ≤ 5000)
    ∧ ∀ g : Nat → Except PTWError (PhotosDB × List String),
        (∀ i, 1 ≤ i → i ≤ 10 → g i = f i) → retryUpdate g = retryUpdate f := by
  have r10 : retryGo f 10 0 = (Except.error (es 10), []) := by
    rw [retryGo_zero, hf 10 (by norm_num) (by norm_num)]
  have r9 : retryGo f 9 1 = (Except.error (es 10), [backoffDelay 8]) := by
    show retryGo f 9 (0 + 1) = _
    rw [retryGo_error f 9 0 (es 9) (hf 9 (by norm_num) (by norm_num)), r10]
  have r8 : retryGo f 8 2 = (Except.error (es 10), [backoffDelay 7, backoffDelay 8]) := by
    show retryGo f 8 (1 + 1) = _
    rw [retryGo_error f 8 1 (es 8) (hf 8 (by norm_num) (by norm_num)), r9]
  have r7 : retryGo f 7 3 =
      (Except.error (es 10), [backoffDelay 6, backoffDelay 7, backoffDelay 8]) := by
    show retryGo f 7 (2 + 1) = _
    rw [retryGo_error f 7 2 (es 7) (hf 7 (by norm_num) (by norm_num)), r8]
  have r6 : retryGo f 6 4 =
      (Except.error (es 10),
        [backoffDelay 5, backoffDelay 6, backoffDelay 7, backoffDelay 8]) := by
    show retryGo f 6 (3 + 1) = _
    rw [retryGo_error f 6 3 (es 6) (hf 6 (by norm_num) (by norm_num)), r7]
  have r5 : retryGo f 5 5 =
      (Except.error (es 10),
        [backoffDelay 4, backoffDelay 5, backoffDelay 6, backoffDelay 7, backoffDelay 8]) := by
    show retryGo f 5 (4 + 1) = _
    rw [retryGo_error f 5 4 (es 5) (hf 5 (by norm_num) (by norm_num)), r6]
  have r4 : retryGo f 4 6 =
      (Except.error (es 10),
        [backoffDelay 3, backoffDelay 4, backoffDelay 5, backoffDelay 6, backoffDelay 7,
         backoffDelay 8]) := by
    show retryGo f 4 (5 + 1) = _
    rw [retryGo_error f 4 5 (es 4) (hf 4 (by norm_num) (by norm_num)), r5]
  have r3 : retryGo f 3 7 =
      (Except.error (es 10),
        [backoffDelay 2, backoffDelay 3, backoffDelay 4, backoffDelay 5, backoffDelay 6,
         backoffDelay 7, backoffDelay 8]) := by
    show retryGo f 3 (6 + 1) = _
    rw [retryGo_error f 3 6 (es 3) (hf 3 (by norm_num) (by norm_num)), r4]
  have r2 : retryGo f 2 8 =
      (Except.error (es 10),
        [backoffDelay 1, backoffDelay 2, backoffDelay 3, backoffDelay 4, backoffDelay 5,
         backoffDelay 6, backoffDelay 7, backoffDelay 8]) := by
    show retryGo f 2 (7 + 1) = _
    rw [retryGo_error f 2 7 (es 2) (hf 2 (by norm_num) (by norm_num)), r3]
  have hrun : retryUpdate f =
      (Except.error (es 10),
        [backoffDelay 0, backoffDelay 1, backoffDelay 2, backoffDelay 3, backoffDelay 4,
         backoffDelay 5, backoffDelay 6, backoffDelay 7, backoffDelay 8]) := by
    show retryGo f 1 (8 + 1) = _
    rw [retryGo_error f 1 8 (es 1) (hf 1 (by norm_num) (by norm_num)), r2]
  refine ⟨?_, ?_, ?_, ?_, ?_, ?_⟩
  · simp [hrun]
  · simp only [hrun]
    decide
  · simp only [hrun]
    decide
  · simp only [hrun]
    have hlist : [backoffDelay 0, backoffDelay 1, backoffDelay 2, backoffDelay 3,
        backoffDelay 4, backoffDelay 5, backoffDelay 6, backoffDelay 7, backoffDelay 8]
        = [100, 200, 400, 800, 1600, 3200, 5000, 5000, 5000] := by decide
    rw [hlist]
    norm_num [List.chain'_cons]
  · simp only [hrun]
    decide
  · intro g hg
    exact retryGo_congr g f 9 1 (fun j h1 h2 => hg j h1 (by omega))

/-- Witness for C2: every attempt fails with a distinct error code; the 10th
attempt's error is surfaced and the first delay is 100 ms. -/
theorem claim_C2_retry_witness :
    (retryUpdate (fun i => (Except.error (PTWError.transientWrite i) :
        Except PTWError (PhotosDB × List String)))).1
      = .error (.transientWrite 10)
    ∧ (retryUpdate (fun i => (Except.error (PTWError.transientWrite i) :
        Except PTWError (PhotosDB × List String)))).2.head? = some 100 :=
  have h := claim_C2_retry (fun i => .error (.transientWrite i))
    (fun i => .transientWrite i) (fun _ _ _ => rfl)
  ⟨h.1, h.2.2.1⟩

/-! ## Claim C3: schema-version resolution -/

/-- **C3.** The resolver checks the three inclusive ranges in ascending
generation order, the first matching range wins (bounds included), and any
value outside all three ranges resolves to the newest generation 7 instead
of failing. -/
theorem claim_C3_resolver (r5 r6 r7 : Nat × Nat) (v : Nat) :
    (r5.1 ≤ v ∧ v ≤ r5.2 → get_photos_version r5 r6 r7 v = 5)
    ∧ (¬(r5.1 ≤ v ∧ v ≤ r5.2) → r6.1 ≤ v ∧ v ≤ r6.2 →
        get_photos_version r5 r6 r7 v = 6)
    ∧ (¬(r5.1 ≤ v ∧ v ≤ r5.2) → ¬(r6.1 ≤ v ∧ v ≤ r6.2) → r7.1 ≤ v ∧ v ≤ r7.2 →
        get_photos_version r5 r6 r7 v = 7)
    ∧ (¬(r5.1 ≤ v ∧ v ≤ r5.2) → ¬(r6.1 ≤ v ∧ v ≤ r6.2) → ¬(r7.1 ≤ v ∧ v ≤ r7.2) →
        get_photos_version r5 r6 r7 v = 7) := by
  refine ⟨fun h5 => ?_, fun h5 h6 => ?_, fun h5 h6 h7 => ?_, fun h5 h6 h7 => ?_⟩ <;>
    simp [get_photos_version, *]

/-- Witness for C3 at concrete ranges: both bounds of each range, and a
value outside all ranges. -/
theorem claim_C3_resolver_witness :
    get_photos_version (13000, 14999) (15000, 16999) (17000, 17999) 13000 = 5
    ∧ get_photos_version (13000, 14999) (15000, 16999) (17000, 17999) 16999 = 6
    ∧ get_photos_version (13000, 14999) (15000, 16999) (17000, 17999) 17000 = 7
    ∧ get_photos_version (13000, 14999) (15000, 16999) (17000, 17999) 99999 = 7 :=
  ⟨(claim_C3_resolver (13000, 14999) (15000, 16999) (17000, 17999) 13000).1 (by decide),
   (claim_C3_resolver (13000, 14999) (15000, 16999) (17000, 17999) 16999).2.1
     (by decide) (by decide),
   (claim_C3_resolver (13000, 14999) (15000, 16999) (17000, 17999) 17000).2.2.1
     (by decide) (by decide) (by decide),
   (claim_C3_resolver (13000, 14999) (15000, 16999) (17000, 17999) 99999).2.2.2
     (by decide) (by decide) (by decide)⟩

/-! ## Claim C4: the locate/read operations -/

/-- **C4.** An identifier with no matching joined row makes both read
operations fail with `RecordNotFound`; an identifier whose join produces a
first row `row` makes `locateAsset` return exactly the stored primary key,
counter and timezone fields of `row`, and `get_timezone` return exactly the
stored offset, its encoding, and the stored name. -/
theorem claim_C4_locate (db : PhotosDB) (uuid : String) :
    ((∀ a ∈ db.attrs, ∀ s ∈ db.assets, ¬(a.zasset = s.z_pk ∧ s.zuuid = uuid)) →
        locateAsset db uuid = .error .recordNotFound
        ∧ get_timezone db uuid = .error .recordNotFound)
    ∧ (∀ row rest, joinRows db uuid = row :: rest →
        locateAsset db uuid = .ok ⟨row.z_pk, row.z_opt, row.ztimezoneoffset, row.ztimezonename⟩
        ∧ get_timezone db uuid =
            .ok (row.ztimezoneoffset, tz_to_str row.ztimezoneoffset, row.ztimezonename)) := by
  constructor
  · intro h
    have hnil : joinRows db uuid = [] := by
      rw [joinRows, List.filter_eq_nil_iff]
      intro a ha hcontra
      rw [List.any_eq_true] at hcontra
      obtain ⟨s, hs, hps⟩ := hcontra
      rw [Bool.and_eq_true, beq_iff_eq, beq_iff_eq] at hps
      exact h a ha s hs hps
    constructor
    · simp [locateAsset, hnil]
    · simp [get_timezone, hnil]
  · intro row rest hrow
    constructor
    · simp [locateAsset, hrow]
    · simp [get_timezone, hrow]

/-! ## Witness fixtures -/

/-- A concrete database shared by witnesses: one metadata row, two known
assets, the first with counter 4 and a Pacific timezone (the spec's §8
end-to-end scenario). -/
def wdb : PhotosDB :=
  { metadata := some { z_version := 1, z_plist := .dict [("PLModelVersion", 17120)] }
  , assets := [{ z_pk := 1, zuuid := "uuid-1" }, { z_pk := 2, zuuid := "uuid-2" }]
  , attrs :=
      [ { z_pk := 10, zasset := 1, z_opt := 4, ztimezoneoffset := -28800
        , ztimezonename := "America/Los_Angeles" }
      , { z_pk := 11, zasset := 2, z_opt := 7, ztimezoneoffset := 0
        , ztimezonename := "UTC" } ] }

/-- The empty database: no metadata row, no assets. -/
def wdbEmpty : PhotosDB := { metadata := none, assets := [], attrs := [] }

/-- The requested new timezone of the §8 scenario. -/
def wtz : Timezone := { offset := -18000, name := "America/Denver" }

/-- The photo of the §8 scenario. -/
def wphoto : Photo := { uuid := "uuid-1", filename := "IMG_1.jpg" }

/-- The record the §8 scenario's read returns. -/
def wrec : AssetRecord :=
  { z_pk := 10, z_opt := 4, ztimezoneoffset := -28800
  , ztimezonename := "America/Los_Angeles" }

/-- The database after the §8 scenario's update. -/
def wdb2 : PhotosDB :=
  { wdb with attrs :=
      [ { z_pk := 10, zasset := 1, z_opt := 5, ztimezoneoffset := -18000
        , ztimezonename := "America/Denver" }
      , { z_pk := 11, zasset := 2, z_opt := 7, ztimezoneoffset := 0
        , ztimezonename := "UTC" } ] }

/-- Witness for C4: an unknown identifier fails with `RecordNotFound`, the
known identifier returns the stored counter and timezone fields. -/
theorem claim_C4_locate_witness :
    (locateAsset wdb ("missing") = .error .recordNotFound
      ∧ get_timezone wdb ("missing") = .error .recordNotFound)
    ∧ locateAsset wdb ("uuid-1") = .ok wrec :=
  have hrow : joinRows wdb ("uuid-1") =
      [{ z_pk := 10, zasset := 1, z_opt := 4, ztimezoneoffset := -28800
       , ztimezonename := "America/Los_Angeles" }] := by decide
  ⟨(claim_C4_locate wdb ("missing")).1 (by decide),
   ((claim_C4_locate wdb ("uuid-1")).2 _ [] hrow).1⟩

/-! ## Claim C1: effect of a successful update -/

/-- **C1.** When the read returns a record and the update succeeds, every
stored row carrying the read row's primary key holds the read counter plus
exactly 1 and the requested timezone fields; the primary key is still
present; and no other row — and no other table — is mutated. -/
theorem claim_C1_update_effect (tz : Timezone) (db : PhotosDB) (p : Photo)
    (rec : AssetRecord) (db2 : PhotosDB) (msgs : List String)
    (hread : locateAsset db p.uuid = .ok rec)
    (hupd : update_photo_once tz db p = .ok (db2, msgs)) :
    (∀ r ∈ db2.attrs, r.z_pk = rec.z_pk →
        r.z_opt = rec.z_opt + 1 ∧ r.ztimezoneoffset = tz.offset ∧ r.ztimezonename = tz.name)
    ∧ (∃ r ∈ db2.attrs, r.z_pk = rec.z_pk)
    ∧ db2.attrs.length = db.attrs.length
    ∧ (∀ i (hi : i < db.attrs.length) (hi2 : i < db2.attrs.length),
        (db.attrs.get ⟨i, hi⟩).z_pk ≠ rec.z_pk →
          db2.attrs.get ⟨i, hi2⟩ = db.attrs.get ⟨i, hi⟩)
    ∧ db2.assets = db.assets ∧ db2.metadata = db.metadata := by
  rcases hJ : joinRows db p.uuid with _ | ⟨row, rest⟩
  · simp only [locateAsset, hJ] at hread
    exact Except.noConfusion hread
  · simp only [locateAsset, hJ] at hread
    simp only [update_photo_once, hJ, Except.ok.injEq, Prod.mk.injEq] at hupd
    obtain ⟨hdb2, hmsgs⟩ := hupd
    rw [Except.ok.injEq] at hread
    subst hread
    have hrowmem : row ∈ db.attrs := by
      have hmem : row ∈ joinRows db p.uuid := by
        rw [hJ]
        exact List.mem_cons_self row rest
      rw [joinRows] at hmem
      exact List.mem_of_mem_filter hmem
    subst hdb2
    refine ⟨?_, ?_, ?_, ?_, rfl, rfl⟩
    · intro r hr hpk
      simp only [sql_update, List.mem_map] at hr
      obtain ⟨a, ha, rfl⟩ := hr
      by_cases hc : a.z_pk = row.z_pk
      · simp [applyRow, hc]
      · rw [applyRow, if_neg hc] at hpk ⊢
        exact absurd hpk hc
    · refine ⟨applyRow row.z_pk (row.z_opt + 1) tz.offset tz.name row, ?_, ?_⟩
      · exact List.mem_map.mpr ⟨row, hrowmem, rfl⟩
      · simp [applyRow]
    · simp [sql_update]
    · intro i hi hi2 hne
      have : (sql_update db.attrs row.z_pk (row.z_opt + 1) tz.offset tz.name).get ⟨i, hi2⟩
          = applyRow row.z_pk (row.z_opt + 1) tz.offset tz.name (db.attrs.get ⟨i, hi⟩) := by
        simp [sql_update]
      rw [this, applyRow, if_neg hne]

/-- Witness for C1: the spec's §8 end-to-end scenario — counter 4 becomes 5,
Pacific timezone becomes `America/Denver` at offset -18000. -/
theorem claim_C1_update_effect_witness :
    locateAsset wdb wphoto.uuid = .ok wrec
    ∧ update_photo_once wtz wdb wphoto =
        .ok (wdb2,
          [updateMessage wphoto ("America/Los_Angeles") (-28800) ("America/Denver") (-18000)])
    ∧ (∀ r ∈ wdb2.attrs, r.z_pk = wrec.z_pk →
        r.z_opt = wrec.z_opt + 1 ∧ r.ztimezoneoffset = wtz.offset
          ∧ r.ztimezonename = wtz.name) :=
  have h1 : locateAsset wdb wphoto.uuid = .ok wrec := by rfl
  have h2 : update_photo_once wtz wdb wphoto =
      .ok (wdb2,
        [updateMessage wphoto ("America/Los_Angeles") (-28800) ("America/Denver") (-18000)]) := by
    rfl
  ⟨h1, h2, (claim_C1_update_effect wtz wdb wphoto wrec wdb2 _ h1 h2).1⟩

/-! ## Claim C8: the write is not conditioned on the stored counter -/

/-- **C8.** The update statement selects its row by primary key alone: for
every currently stored counter value `c` of the target row — including
values different from the counter read earlier in the same attempt — the
statement still overwrites the counter and both timezone fields, while rows
with a different primary key pass through unchanged. -/
theorem claim_C8_unconditioned (attrs : List AttrRow) (pk za c : Nat) (off0 : Int)
    (name0 : String) (z_opt : Nat) (off : Int) (name : String)
    (hmem : (⟨pk, za, c, off0, name0⟩ : AttrRow) ∈ attrs) :
    (⟨pk, za, z_opt, off, name⟩ : AttrRow) ∈ sql_update attrs pk z_opt off name
    ∧ (∀ r ∈ attrs, r.z_pk ≠ pk → r ∈ sql_update attrs pk z_opt off name)
    ∧ (sql_update attrs pk z_opt off name).length = attrs.length := by
  refine ⟨?_, ?_, ?_⟩
  · rw [sql_update]
    refine List.mem_map.mpr ⟨_, hmem, ?_⟩
    simp [applyRow]
  · intro r hr hne
    rw [sql_update]
    refine List.mem_map.mpr ⟨r, hr, ?_⟩
    simp [applyRow, hne]
  · simp [sql_update]

/-- Witness for C8: the stored counter 999 differs from anything read, yet
the row keyed 10 is overwritten and the row keyed 11 is untouched. -/
theorem claim_C8_unconditioned_witness :
    ((⟨10, 1, 5, -18000, "America/Denver"⟩ : AttrRow) ∈
        sql_update
          [⟨10, 1, 999, -28800, "America/Los_Angeles"⟩, ⟨11, 2, 7, 0, "UTC"⟩]
          10 5 (-18000) ("America/Denver"))
    ∧ ((⟨11, 2, 7, 0, "UTC"⟩ : AttrRow) ∈
        sql_update
          [⟨10, 1, 999, -28800, "America/Los_Angeles"⟩, ⟨11, 2, 7, 0, "UTC"⟩]
          10 5 (-18000) ("America/Denver")) :=
  have h := claim_C8_unconditioned
    [⟨10, 1, 999, -28800, "America/Los_Angeles"⟩, ⟨11, 2, 7, 0, "UTC"⟩]
    10 1 999 (-28800) ("America/Los_Angeles") 5 (-18000) ("America/Denver")
    (by simp)
  ⟨h.1, h.2.1 ⟨11, 2, 7, 0, "UTC"⟩ (by simp) (by decide)⟩

/-! ## Claim C7: schema failures are fatal at construction -/

/-- **C7.** An absent metadata row, a malformed blob, or a missing
`PLModelVersion` key makes schema resolution fail with `SchemaUnreadable`,
and any resolver failure propagates out of `initUpdater`, aborting the
construction of the session object. -/
theorem claim_C7_schema_fatal (r5 r6 r7 : Nat × Nat) (tz : Timezone) (db : PhotosDB) :
    (db.metadata = none →
        get_db_model_version db = .error .schemaUnreadable
        ∧ initUpdater r5 r6 r7 tz db = .error .schemaUnreadable)
    ∧ (∀ v, db.metadata = some { z_version := v, z_plist := .malformed } →
        get_db_model_version db = .error .schemaUnreadable
        ∧ initUpdater r5 r6 r7 tz db = .error .schemaUnreadable)
    ∧ (∀ v entries, db.metadata = some { z_version := v, z_plist := .dict entries } →
        entries.lookup ("PLModelVersion") = none →
        get_db_model_version db = .error .schemaUnreadable
        ∧ initUpdater r5 r6 r7 tz db = .error .schemaUnreadable)
    ∧ (∀ e, get_db_model_version db = .error e →
        initUpdater r5 r6 r7 tz db = .error e) := by
  refine ⟨fun h => ?_, fun v h => ?_, fun v entries h hlook => ?_, fun e h => ?_⟩
  · have hg : get_db_model_version db = .error .schemaUnreadable := by
      simp [get_db_model_version, h]
    exact ⟨hg, by simp [initUpdater, hg]⟩
  · have hg : get_db_model_version db = .error .schemaUnreadable := by
      simp [get_db_model_version, h]
    exact ⟨hg, by simp [initUpdater, hg]⟩
  · have hg : get_db_model_version db = .error .schemaUnreadable := by
      simp [get_db_model_version, h, hlook]
    exact ⟨hg, by simp [initUpdater, hg]⟩
  · simp [initUpdater, h]

/-- Databases with each kind of unreadable schema, for the C7 witness. -/
def wdbBadBlob : PhotosDB :=
  { metadata := some { z_version := 3, z_plist := .malformed }, assets := [], attrs := [] }

/-- A database whose metadata blob decodes but lacks `PLModelVersion`. -/
def wdbNoKey : PhotosDB :=
  { metadata := some { z_version := 3, z_plist := .dict [("SomeOtherKey", 1)] }
  , assets := [], attrs := [] }

/-- Witness for C7: all three failure shapes abort construction with
`SchemaUnreadable`. -/
theorem claim_C7_schema_fatal_witness :
    initUpdater (13000, 14999) (15000, 16999) (17000, 17999) wtz wdbEmpty
      = .error .schemaUnreadable
    ∧ initUpdater (13000, 14999) (15000, 16999) (17000, 17999) wtz wdbBadBlob
      = .error .schemaUnreadable
    ∧ initUpdater (13000, 14999) (15000, 16999) (17000, 17999) wtz wdbNoKey
      = .error .schemaUnreadable :=
  ⟨((claim_C7_schema_fatal (13000, 14999) (15000, 16999) (17000, 17999) wtz wdbEmpty).1
      rfl).2,
   ((claim_C7_schema_fatal (13000, 14999) (15000, 16999) (17000, 17999) wtz wdbBadBlob).2.1
      3 rfl).2,
   ((claim_C7_schema_fatal (13000, 14999) (15000, 16999) (17000, 17999) wtz wdbNoKey).2.2.1
      3 [("SomeOtherKey", 1)] rfl (by decide)).2⟩

/-! ## Claim C6: the per-asset batch-item boundary -/

/-- **C6.** Every error of the retried per-photo update — `RecordNotFound`,
the exhaustion outcome, or any other — is caught by `update_photo`, turned
into a report through the notification sink, and the call returns normally
with the database untouched; a success passes through unchanged; and the
batch driver produces one outcome per photo, so no per-photo error stops
the photos after it. -/
theorem claim_C6_item_boundary (tz : Timezone) (db : PhotosDB) (p : Photo) :
    (∀ e, update_photo_retried tz db p = .error e →
        update_photo tz db p = (db, ["Error updating " ++ p.uuid ++ ": " ++ errorText e]))
    ∧ (∀ r, update_photo_retried tz db p = .ok r → update_photo tz db p = r)
    ∧ (∀ ps : List Photo, (update_photos tz db ps).2.length = ps.length) := by
  refine ⟨fun e h => ?_, fun r h => ?_, fun ps => ?_⟩
  · simp [update_photo, h]
  · simp [update_photo, h]
  · induction ps generalizing db with
    | nil => rfl
    | cons q qs ih => simp [update_photos, ih]

/-- Witness for C6: on the empty database the retried update fails with
`RecordNotFound`; the per-asset call reports it and returns the database
unchanged, and a two-photo batch still yields two outcomes. -/
theorem claim_C6_item_boundary_witness :
    update_photo_retried wtz wdbEmpty wphoto = .error .recordNotFound
    ∧ update_photo wtz wdbEmpty wphoto =
        (wdbEmpty, ["Error updating " ++ wphoto.uuid ++ ": " ++ errorText .recordNotFound])
    ∧ (update_photos wtz wdbEmpty [wphoto, wphoto]).2.length = 2 :=
  have h : update_photo_retried wtz wdbEmpty wphoto = .error .recordNotFound := by rfl
  ⟨h, (claim_C6_item_boundary wtz wdbEmpty wphoto).1 .recordNotFound h,
   (claim_C6_item_boundary wtz wdbEmpty wphoto).2.2 [wphoto, wphoto]⟩
